import Mathlib

/-!
# Verification of the payment-intent gateway (`src/index.js`)

Shallow embedding of the Express gateway in `src/index.js`:

* `createPaymentIntent` embeds the `POST /payment/create` route handler
  (lines 52–96): content-type gate, destructuring of `amount` and
  `currency` (with default `"usd"`), the amount validation
  `typeof amount !== "number" || amount < 50`, the remote call with
  `Math.round(amount)` and the metadata object, and the mapping of the
  remote outcome to an HTTP response.
* `healthCheck` embeds the `GET /health` handler (lines 44–49).
* `errorHandler` embeds the catch-all error middleware (lines 99–107).
* `gateway` composes the `express.json` body-parsing stage with the route
  handler: a request whose content type is not JSON is never parsed and is
  answered 415 by the handler; a JSON request whose raw body is not valid
  JSON makes `express.json` throw, so the error middleware answers.

JavaScript numbers are modelled by `JsNumber`: an exact rational, `NaN`,
`+∞` or `-∞`.  The comparison `amount < 50` and `Math.round` are given
their JavaScript semantics (`NaN < 50` and `Infinity < 50` are false,
`-Infinity < 50` is true, `Math.round x = ⌊x + 1/2⌋` on finite values).
The remote processor is an injected function
`StripeArgs → Except StripeError PaymentIntent`, per the documented
contract; the `remoteCall` field of `Output` records the arguments of the
outbound call when one was issued, so "never invokes the remote
processor" is the statement `remoteCall = none`.
-/

namespace PaymentGateway

/-- A JavaScript number: an exact finite value, `NaN`, or an infinity. -/
inductive JsNumber where
  | finite (q : ℚ)
  | nan
  | posInf
  | negInf
deriving DecidableEq

/-- `true` iff the number is neither `NaN` nor infinite. -/
def JsNumber.isFinite : JsNumber → Bool
  | .finite _ => true
  | _ => false

/-- JavaScript semantics of `n < c` for a numeric literal `c`:
`NaN < c` and `Infinity < c` are `false`; `-Infinity < c` is `true`. -/
def jsLtNum : JsNumber → ℚ → Bool
  | .finite q, c => decide (q < c)
  | .nan, _ => false
  | .posInf, _ => false
  | .negInf, _ => true

/-- `Math.round` on an exact finite value: round half toward `+∞`,
i.e. the floor of `q + 1/2`. -/
def jsRoundQ (q : ℚ) : ℤ := ⌊q + 1/2⌋

/-- `Math.round`: identity on `NaN` and the infinities. -/
def jsRound : JsNumber → JsNumber
  | .finite q => .finite (jsRoundQ q)
  | n => n

/-- A JavaScript (JSON-shaped) value, as found in a parsed request body. -/
inductive JsVal where
  | num (n : JsNumber)
  | str (s : String)
  | bool (b : Bool)
  | null
  | arr (xs : List JsVal)
  | obj (fields : List (String × JsVal))

/-- Property lookup on a JSON object (`JSON.parse` keeps the last of
duplicate keys, so the rightmost binding wins).  `none` models
`undefined`. -/
def jsGet (fields : List (String × JsVal)) (key : String) : Option JsVal :=
  fields.foldl (fun acc p => if p.1 = key then some p.2 else acc) none

/-- Property lookup on an arbitrary value: only objects have the
`amount`/`currency` properties; on every other body shape destructuring
yields `undefined`. -/
def jsGetProp : JsVal → String → Option JsVal
  | .obj fields, key => jsGet fields key
  | _, _ => none

/-- The metadata object attached to the remote create call
(lines 69–72). -/
structure Metadata where
  integration_check : String
  app_version : String
deriving DecidableEq

/-- Arguments of the outbound `stripe.paymentIntents.create` call
(lines 66–73). -/
structure StripeArgs where
  amount : JsNumber
  currency : JsVal
  metadata : Metadata

/-- The remote processor's created resource, per the documented contract
`{id, clientSecret, amount, currency}` with an integer amount. -/
structure PaymentIntent where
  id : String
  client_secret : String
  amount : ℤ
  currency : String
deriving DecidableEq

/-- The remote processor's error shape: `message`, `code`, `type`
(lines 89–94 read exactly these fields). -/
structure StripeError where
  message : String
  code : String
  type : String
deriving DecidableEq

/-- An exception reaching the catch-all middleware (only its presence
matters: the middleware logs it server-side and ignores it in the
response). -/
structure ServerError where
  message : String
  stack : String

/-- An HTTP response produced by the gateway, together with the outbound
remote call it issued, if any. -/
structure Output where
  status : ℕ
  body : List (String × JsVal)
  remoteCall : Option StripeArgs

/-- `process.env.npm_package_version || "1.0.0"` (lines 47 and 71):
JavaScript `||` also falls back on the empty string. -/
def appVersion (env : Option String) : String :=
  match env with
  | some s => if s = "" then "1.0.0" else s
  | none => "1.0.0"

/-- The `GET /health` handler (lines 44–49). -/
def healthCheck (env : Option String) : Output :=
  { status := 200
    body := [("status", .str "healthy"), ("version", .str (appVersion env))]
    remoteCall := none }

/-- The catch-all error middleware (lines 99–107): always a generic 500,
whatever the error was. -/
def errorHandler (_err : ServerError) : Output :=
  { status := 500
    body := [("error", .str "Internal Server Error")]
    remoteCall := none }

/-- The `POST /payment/create` route handler (lines 52–96).
`isJson` is the truthiness of `req.is("application/json")`, `body` is
`req.body`, `call` the injected remote client, `env` the
`npm_package_version` environment variable. -/
def createPaymentIntent (isJson : Bool) (body : JsVal)
    (call : StripeArgs → Except StripeError PaymentIntent)
    (env : Option String) : Output :=
  if !isJson then
    { status := 415, body := [("error", .str "Unsupported Media Type")],
      remoteCall := none }
  else
    let amount := jsGetProp body "amount"
    let currency := (jsGetProp body "currency").getD (.str "usd")
    match amount with
    | some (.num n) =>
      if jsLtNum n 50 then
        { status := 400
          body := [("error", .str "Amount must be a number of at least 50 cents")]
          remoteCall := none }
      else
        let args : StripeArgs :=
          { amount := jsRound n
            currency := currency
            metadata :=
              { integration_check := "accept_a_payment"
                app_version := appVersion env } }
        match call args with
        | .ok paymentIntent =>
          { status := 201
            body := [("clientSecret", .str paymentIntent.client_secret),
                     ("amount", .num (.finite (paymentIntent.amount : ℚ))),
                     ("currency", .str paymentIntent.currency),
                     ("id", .str paymentIntent.id)]
            remoteCall := some args }
        | .error e =>
          { status := if e.type = "StripeInvalidRequestError" then 400 else 500
            body := [("error", .str e.message), ("code", .str e.code),
                     ("type", .str e.type)]
            remoteCall := some args }
    | _ =>
      { status := 400
        body := [("error", .str "Amount must be a number of at least 50 cents")]
        remoteCall := none }

/-- The raw body of an incoming request, as seen by the `express.json`
middleware: absent, not valid JSON text (this includes any text with
`NaN` or `Infinity` literals, which JSON cannot represent), or valid
JSON parsing to an object or to an array (`express.json` is strict: a
top-level JSON value other than an object or array is also rejected as a
parse failure). -/
inductive RawBody where
  | empty
  | invalidJson
  | jsonObj (fields : List (String × JsVal))
  | jsonArr (elems : List JsVal)

/-- An incoming `POST /payment/create` request. `contentTypeJson` is the
truthiness of `req.is("application/json")`: it is `false` both when the
`Content-Type` header does not declare JSON and when the request has no
body at all (`req.is` returns `null` then). -/
structure Request where
  contentTypeJson : Bool
  rawBody : RawBody

/-- The full request pipeline for `POST /payment/create`: the
`express.json` stage (line 35) parses the body only when the content
type is JSON, and on a parse failure the thrown error skips the route
and reaches the catch-all middleware; otherwise the route handler runs
(an empty JSON-typed body parses to `{}`). -/
def gateway (req : Request) (call : StripeArgs → Except StripeError PaymentIntent)
    (env : Option String) : Output :=
  match req.contentTypeJson, req.rawBody with
  | true, .invalidJson =>
      errorHandler { message := "entity.parse.failed", stack := "" }
  | true, .empty => createPaymentIntent true (.obj []) call env
  | true, .jsonObj fields => createPaymentIntent true (.obj fields) call env
  | true, .jsonArr elems => createPaymentIntent true (.arr elems) call env
  | false, _ => createPaymentIntent false .null call env

/-- A remote double that always succeeds with the spec's mocked-processor
response `{id:"pi_1", client_secret:"secret_1", amount:1500,
currency:"eur"}`. -/
def okCall : StripeArgs → Except StripeError PaymentIntent :=
  fun _ =>
    .ok { id := "pi_1", client_secret := "secret_1",
          amount := 1500, currency := "eur" }

/-- A remote double that always fails with an invalid-request error. -/
def invalidReqCall : StripeArgs → Except StripeError PaymentIntent :=
  fun _ =>
    .error { message := "Amount too large", code := "amount_too_large",
             type := "StripeInvalidRequestError" }

/-- A remote double that always fails with a non-invalid-request error
(a simulated network failure). -/
def networkFailCall : StripeArgs → Except StripeError PaymentIntent :=
  fun _ =>
    .error { message := "Connection reset", code := "econnreset",
             type := "StripeConnectionError" }

/-- `true` iff the raw body parsed successfully (to an object or array). -/
def RawBody.isParsed : RawBody → Bool
  | .jsonObj _ => true
  | .jsonArr _ => true
  | _ => false

/-- The value destructured for `amount` from a request body: only an
object body can supply one. -/
def bodyAmount : RawBody → Option JsVal
  | .jsonObj fields => jsGet fields "amount"
  | _ => none

/-- The handler's rejection condition on the destructured amount:
`typeof amount !== "number" || amount < 50` (line 59). -/
def amountInvalid : Option JsVal → Bool
  | some (.num n) => jsLtNum n 50
  | _ => true

/-- A parsed body is JSON-representable at its `amount` property: if the
amount is a number it is finite.  `JSON.parse` can only produce finite
numbers (JSON has no `NaN`/`Infinity` literals), so every body produced
by `express.json` satisfies this. -/
def amountJsonSafe (fields : List (String × JsVal)) : Bool :=
  match jsGet fields "amount" with
  | some (.num n) => n.isFinite
  | _ => true

/-- `amountJsonSafe` lifted to raw bodies. -/
def rawAmountSafe : RawBody → Bool
  | .jsonObj fields => amountJsonSafe fields
  | _ => true

/-- The request carries a JSON object body whose `amount` is a finite
number `≥ 50`. -/
def requestAmountOk (b : RawBody) : Prop :=
  ∃ fields q, b = .jsonObj fields ∧
    jsGet fields "amount" = some (JsVal.num (.finite q)) ∧ (50 : ℚ) ≤ q

/-- C1: for a JSON request whose `amount` is a finite number `≥ 50`, when the
remote call (made with `Math.round(amount)` as an integer, the `usd`-defaulted
currency and the integration/version metadata) succeeds with a response whose
`client_secret` is non-empty and whose `amount` echoes the rounded request
amount, the gateway answers 201 with `{clientSecret, amount, currency, id}`
drawn from the processor response, the returned amount being `round(amount)`. -/
theorem c1_valid_amount_success (fields : List (String × JsVal))
    (call : StripeArgs → Except StripeError PaymentIntent) (env : Option String)
    (q : ℚ) (paymentIntent : PaymentIntent)
    (hamt : jsGet fields "amount" = some (JsVal.num (.finite q)))
    (hge : (50 : ℚ) ≤ q)
    (hcall : call { amount := .finite (jsRoundQ q : ℚ),
                    currency := (jsGet fields "currency").getD (JsVal.str "usd"),
                    metadata := { integration_check := "accept_a_payment",
                                  app_version := appVersion env } } = .ok paymentIntent)
    (hsecret : paymentIntent.client_secret ≠ "")
    (hecho : paymentIntent.amount = jsRoundQ q) :
    gateway { contentTypeJson := true, rawBody := .jsonObj fields } call env =
      { status := 201,
        body := [("clientSecret", JsVal.str paymentIntent.client_secret),
                 ("amount", JsVal.num (.finite (jsRoundQ q : ℚ))),
                 ("currency", JsVal.str paymentIntent.currency),
                 ("id", JsVal.str paymentIntent.id)],
        remoteCall := some { amount := .finite (jsRoundQ q : ℚ),
                             currency := (jsGet fields "currency").getD (JsVal.str "usd"),
                             metadata := { integration_check := "accept_a_payment",
                                           app_version := appVersion env } } } ∧
    paymentIntent.client_secret ≠ "" := by
  have hlt : jsLtNum (.finite q) 50 = false := by
    simp only [jsLtNum, decide_eq_false_iff_not, not_lt]
    exact hge
  have hround : jsRound (.finite q) = .finite (jsRoundQ q : ℚ) := rfl
  refine ⟨?_, hsecret⟩
  simp [gateway, createPaymentIntent, jsGetProp, hamt, hlt, hround, hcall, hecho]

/-- Witness for C1 at `amount = 1499.5`, currency `"eur"`, with the mocked
processor `okCall`: the rounded forwarded amount is `1500` and the response is
201 with the mock's fields. -/
theorem c1_witness :
    jsGet [("amount", JsVal.num (.finite (2999/2))), ("currency", JsVal.str "eur")]
        "amount" = some (JsVal.num (.finite (2999/2))) ∧
    (50 : ℚ) ≤ 2999/2 ∧
    okCall { amount := .finite (jsRoundQ (2999/2) : ℚ),
             currency := (jsGet [("amount", JsVal.num (.finite (2999/2))),
                                 ("currency", JsVal.str "eur")] "currency").getD (JsVal.str "usd"),
             metadata := { integration_check := "accept_a_payment",
                           app_version := appVersion none } } =
      .ok { id := "pi_1", client_secret := "secret_1", amount := 1500, currency := "eur" } ∧
    (1500 : ℤ) = jsRoundQ (2999/2) ∧
    gateway { contentTypeJson := true,
              rawBody := .jsonObj [("amount", JsVal.num (.finite (2999/2))),
                                   ("currency", JsVal.str "eur")] } okCall none =
      { status := 201,
        body := [("clientSecret", JsVal.str "secret_1"),
                 ("amount", JsVal.num (.finite (jsRoundQ (2999/2) : ℚ))),
                 ("currency", JsVal.str "eur"),
                 ("id", JsVal.str "pi_1")],
        remoteCall := some { amount := .finite (jsRoundQ (2999/2) : ℚ),
                             currency := JsVal.str "eur",
                             metadata := { integration_check := "accept_a_payment",
                                           app_version := "1.0.0" } } } := by
  have h := c1_valid_amount_success
    [("amount", JsVal.num (.finite (2999/2))), ("currency", JsVal.str "eur")]
    okCall none (2999/2)
    { id := "pi_1", client_secret := "secret_1", amount := 1500, currency := "eur" }
    (by simp [jsGet]) (by norm_num) rfl (by decide) (by norm_num [jsRoundQ])
  refine ⟨by simp [jsGet], by norm_num, rfl, by norm_num [jsRoundQ], ?_⟩
  rw [h.1]
  simp [jsGet, appVersion]

/-- C2 counterexample: a request whose body holds `amount = 10` (`< 50`) but
whose content type is not JSON is answered 415, not the claimed 400: the
content-type gate runs before amount validation, so C2 as stated is false. -/
theorem c2_counterexample :
    (gateway { contentTypeJson := false,
               rawBody := .jsonObj [("amount", JsVal.num (.finite 10))] }
      okCall none).status = 415 ∧
    (gateway { contentTypeJson := false,
               rawBody := .jsonObj [("amount", JsVal.num (.finite 10))] }
      okCall none).status ≠ 400 := by
  refine ⟨rfl, ?_⟩
  intro h
  simp [gateway, createPaymentIntent] at h

/-- C2 (amended): for a request with JSON content type whose body parses as a
JSON object or array, if the destructured `amount` is missing, non-numeric, or
a number `< 50`, the gateway answers 400 with
`{error: "Amount must be a number of at least 50 cents"}` and never issues the
remote call. -/
theorem c2_invalid_amount_rejected (b : RawBody)
    (call : StripeArgs → Except StripeError PaymentIntent) (env : Option String)
    (hb : b.isParsed = true) (hbad : amountInvalid (bodyAmount b) = true) :
    gateway { contentTypeJson := true, rawBody := b } call env =
      { status := 400,
        body := [("error", JsVal.str "Amount must be a number of at least 50 cents")],
        remoteCall := none } := by
  cases b with
  | empty => simp [RawBody.isParsed] at hb
  | invalidJson => simp [RawBody.isParsed] at hb
  | jsonArr elems => rfl
  | jsonObj fields =>
    simp only [bodyAmount] at hbad
    simp only [gateway, createPaymentIntent, jsGetProp, Bool.not_true, if_false]
    cases h : jsGet fields "amount" with
    | none => simp [h]
    | some v =>
      cases v with
      | num n =>
        rw [h] at hbad
        simp only [amountInvalid] at hbad
        simp [h, hbad]
      | str s => simp [h]
      | bool x => simp [h]
      | null => simp [h]
      | arr xs => simp [h]
      | obj fs => simp [h]

/-- Witness for the amended C2 at `{"amount": 10}` with JSON content type. -/
theorem c2_witness :
    RawBody.isParsed (.jsonObj [("amount", JsVal.num (.finite 10))]) = true ∧
    amountInvalid (bodyAmount (.jsonObj [("amount", JsVal.num (.finite 10))])) = true ∧
    gateway { contentTypeJson := true,
              rawBody := .jsonObj [("amount", JsVal.num (.finite 10))] } okCall none =
      { status := 400,
        body := [("error", JsVal.str "Amount must be a number of at least 50 cents")],
        remoteCall := none } := by
  refine ⟨rfl, ?_, c2_invalid_amount_rejected _ okCall none rfl ?_⟩ <;>
    norm_num [amountInvalid, bodyAmount, jsGet, jsLtNum]

/-- C3: forwarding invariant.  For any request whose parsed body is
JSON-representable at `amount` (`express.json` can only produce finite
numbers; a raw body containing `NaN` or `Infinity` literals is not valid JSON
and lands in the `invalidJson` case), the remote call is issued only when the
body is a JSON object whose `amount` is a finite number `≥ 50`; every request
without such an amount is answered without contacting the remote service and
without a 201. -/
theorem c3_forwarding_invariant (ct : Bool) (b : RawBody)
    (call : StripeArgs → Except StripeError PaymentIntent) (env : Option String)
    (hsafe : rawAmountSafe b = true) :
    ((gateway { contentTypeJson := ct, rawBody := b } call env).remoteCall ≠ none →
      requestAmountOk b) ∧
    (¬ requestAmountOk b →
      (gateway { contentTypeJson := ct, rawBody := b } call env).remoteCall = none ∧
      (gateway { contentTypeJson := ct, rawBody := b } call env).status ≠ 201) := by
  cases ct with
  | false =>
    refine ⟨fun h => absurd ?_ h, fun _ => ⟨?_, ?_⟩⟩ <;> cases b <;> simp [gateway, createPaymentIntent]
  | true =>
    cases b with
    | empty =>
      refine ⟨fun h => absurd ?_ h, fun _ => ⟨?_, ?_⟩⟩ <;>
        simp [gateway, createPaymentIntent, jsGetProp, jsGet]
    | invalidJson =>
      refine ⟨fun h => absurd ?_ h, fun _ => ⟨?_, ?_⟩⟩ <;>
        simp [gateway, errorHandler]
    | jsonArr elems =>
      refine ⟨fun h => absurd ?_ h, fun _ => ⟨?_, ?_⟩⟩ <;>
        simp [gateway, createPaymentIntent, jsGetProp]
    | jsonObj fields =>
      simp only [rawAmountSafe, amountJsonSafe] at hsafe
      cases hga : jsGet fields "amount" with
      | none =>
        constructor
        · intro h
          exact absurd (by simp [gateway, createPaymentIntent, jsGetProp, hga]) h
        · intro _
          constructor <;> simp [gateway, createPaymentIntent, jsGetProp, hga]
      | some v =>
        cases v with
        | num n =>
          rw [hga] at hsafe
          cases n with
          | finite q =>
            by_cases hq : q < 50
            · have hlt : jsLtNum (.finite q) 50 = true := by
                simp [jsLtNum, hq]
              constructor
              · intro h
                exact absurd (by simp [gateway, createPaymentIntent, jsGetProp, hga, hlt]) h
              · intro _
                constructor <;> simp [gateway, createPaymentIntent, jsGetProp, hga, hlt]
            · have hok : requestAmountOk (.jsonObj fields) :=
                ⟨fields, q, rfl, hga, le_of_not_lt hq⟩
              exact ⟨fun _ => hok, fun hno => absurd hok hno⟩
          | nan => simp [JsNumber.isFinite] at hsafe
          | posInf => simp [JsNumber.isFinite] at hsafe
          | negInf => simp [JsNumber.isFinite] at hsafe
        | str s =>
          constructor
          · intro h
            exact absurd (by simp [gateway, createPaymentIntent, jsGetProp, hga]) h
          · intro _
            constructor <;> simp [gateway, createPaymentIntent, jsGetProp, hga]
        | bool x =>
          constructor
          · intro h
            exact absurd (by simp [gateway, createPaymentIntent, jsGetProp, hga]) h
          · intro _
            constructor <;> simp [gateway, createPaymentIntent, jsGetProp, hga]
        | null =>
          constructor
          · intro h
            exact absurd (by simp [gateway, createPaymentIntent, jsGetProp, hga]) h
          · intro _
            constructor <;> simp [gateway, createPaymentIntent, jsGetProp, hga]
        | arr xs =>
          constructor
          · intro h
            exact absurd (by simp [gateway, createPaymentIntent, jsGetProp, hga]) h
          · intro _
            constructor <;> simp [gateway, createPaymentIntent, jsGetProp, hga]
        | obj fs =>
          constructor
          · intro h
            exact absurd (by simp [gateway, createPaymentIntent, jsGetProp, hga]) h
          · intro _
            constructor <;> simp [gateway, createPaymentIntent, jsGetProp, hga]

/-- Witness for C3 at a JSON body `{"amount": 100}`. -/
theorem c3_witness :
    rawAmountSafe (.jsonObj [("amount", JsVal.num (.finite 100))]) = true ∧
    (((gateway { contentTypeJson := true,
                 rawBody := .jsonObj [("amount", JsVal.num (.finite 100))] }
        okCall none).remoteCall ≠ none →
        requestAmountOk (.jsonObj [("amount", JsVal.num (.finite 100))])) ∧
     (¬ requestAmountOk (.jsonObj [("amount", JsVal.num (.finite 100))]) →
        (gateway { contentTypeJson := true,
                   rawBody := .jsonObj [("amount", JsVal.num (.finite 100))] }
          okCall none).remoteCall = none ∧
        (gateway { contentTypeJson := true,
                   rawBody := .jsonObj [("amount", JsVal.num (.finite 100))] }
          okCall none).status ≠ 201)) := by
  have hsafe : rawAmountSafe (.jsonObj [("amount", JsVal.num (.finite 100))]) = true := by
    simp [rawAmountSafe, amountJsonSafe, jsGet, JsNumber.isFinite]
  exact ⟨hsafe, c3_forwarding_invariant true _ okCall none hsafe⟩

/-- C4: any request whose content type does not declare JSON is answered 415
`{error: "Unsupported Media Type"}` with no remote call, whatever the body —
so neither amount validation nor the remote call can influence the outcome. -/
theorem c4_non_json_rejected (b : RawBody)
    (call : StripeArgs → Except StripeError PaymentIntent) (env : Option String) :
    gateway { contentTypeJson := false, rawBody := b } call env =
      { status := 415, body := [("error", JsVal.str "Unsupported Media Type")],
        remoteCall := none } := by
  cases b <;> rfl

/-- C5: when the remote call fails, the gateway answers 400 if the error type
is `StripeInvalidRequestError` and 500 otherwise, and in both cases the body
carries the processor error's `message`, `code` and `type` fields. -/
theorem c5_remote_failure_mapped (fields : List (String × JsVal))
    (call : StripeArgs → Except StripeError PaymentIntent) (env : Option String)
    (n : JsNumber) (e : StripeError)
    (hamt : jsGet fields "amount" = some (JsVal.num n))
    (hlt : jsLtNum n 50 = false)
    (hcall : call { amount := jsRound n,
                    currency := (jsGet fields "currency").getD (JsVal.str "usd"),
                    metadata := { integration_check := "accept_a_payment",
                                  app_version := appVersion env } } = .error e) :
    gateway { contentTypeJson := true, rawBody := .jsonObj fields } call env =
      { status := if e.type = "StripeInvalidRequestError" then 400 else 500,
        body := [("error", JsVal.str e.message), ("code", JsVal.str e.code),
                 ("type", JsVal.str e.type)],
        remoteCall := some { amount := jsRound n,
                             currency := (jsGet fields "currency").getD (JsVal.str "usd"),
                             metadata := { integration_check := "accept_a_payment",
                                           app_version := appVersion env } } } := by
  simp [gateway, createPaymentIntent, jsGetProp, hamt, hlt, hcall]

/-- Witness for C5: an invalid-request error maps to 400 with the error's
message/code/type, and a connection error maps to 500. -/
theorem c5_witness :
    jsGet [("amount", JsVal.num (.finite 1500))] "amount" =
      some (JsVal.num (.finite 1500)) ∧
    jsLtNum (.finite 1500) 50 = false ∧
    (gateway { contentTypeJson := true,
               rawBody := .jsonObj [("amount", JsVal.num (.finite 1500))] }
       invalidReqCall none).status = 400 ∧
    (gateway { contentTypeJson := true,
               rawBody := .jsonObj [("amount", JsVal.num (.finite 1500))] }
       invalidReqCall none).body =
      [("error", JsVal.str "Amount too large"), ("code", JsVal.str "amount_too_large"),
       ("type", JsVal.str "StripeInvalidRequestError")] ∧
    (gateway { contentTypeJson := true,
               rawBody := .jsonObj [("amount", JsVal.num (.finite 1500))] }
       networkFailCall none).status = 500 := by
  have h400 := c5_remote_failure_mapped [("amount", JsVal.num (.finite 1500))]
    invalidReqCall none (.finite 1500)
    { message := "Amount too large", code := "amount_too_large",
      type := "StripeInvalidRequestError" }
    (by simp [jsGet]) (by norm_num [jsLtNum]) rfl
  have h500 := c5_remote_failure_mapped [("amount", JsVal.num (.finite 1500))]
    networkFailCall none (.finite 1500)
    { message := "Connection reset", code := "econnreset",
      type := "StripeConnectionError" }
    (by simp [jsGet]) (by norm_num [jsLtNum]) rfl
  refine ⟨by simp [jsGet], by norm_num [jsLtNum], ?_, ?_, ?_⟩
  · rw [h400]; simp
  · rw [h400]
  · rw [h500]; simp

/-- C6: with a valid amount, the currency forwarded to the remote processor is
`"usd"` when the body has no `currency` property, and is the supplied value,
unchanged and unvalidated, when it has one. -/
theorem c6_currency_default_and_passthrough (fields : List (String × JsVal))
    (call : StripeArgs → Except StripeError PaymentIntent) (env : Option String)
    (n : JsNumber)
    (hamt : jsGet fields "amount" = some (JsVal.num n))
    (hlt : jsLtNum n 50 = false) :
    (jsGet fields "currency" = none →
      ∃ a, (gateway { contentTypeJson := true, rawBody := .jsonObj fields } call env).remoteCall
            = some a ∧ a.currency = JsVal.str "usd") ∧
    (∀ v, jsGet fields "currency" = some v →
      ∃ a, (gateway { contentTypeJson := true, rawBody := .jsonObj fields } call env).remoteCall
            = some a ∧ a.currency = v) := by
  have hcore : ∀ cur, (jsGet fields "currency").getD (JsVal.str "usd") = cur →
      ∃ a, (gateway { contentTypeJson := true, rawBody := .jsonObj fields } call env).remoteCall
            = some a ∧ a.currency = cur := by
    intro cur hcur
    simp only [gateway, createPaymentIntent, jsGetProp, hamt, hlt, Bool.not_true,
      Bool.false_eq_true, if_false]
    cases hc : call { amount := jsRound n,
                      currency := (jsGet fields "currency").getD (JsVal.str "usd"),
                      metadata := { integration_check := "accept_a_payment",
                                    app_version := appVersion env } } with
    | ok pi =>
      exact ⟨{ amount := jsRound n,
               currency := (jsGet fields "currency").getD (JsVal.str "usd"),
               metadata := { integration_check := "accept_a_payment",
                             app_version := appVersion env } }, by simp [hc], hcur⟩
    | error e =>
      exact ⟨{ amount := jsRound n,
               currency := (jsGet fields "currency").getD (JsVal.str "usd"),
               metadata := { integration_check := "accept_a_payment",
                             app_version := appVersion env } }, by simp [hc], hcur⟩
  constructor
  · intro hnone
    exact hcore _ (by simp [hnone])
  · intro v hv
    exact hcore _ (by simp [hv])

/-- Witness for C6 at a body carrying `currency = "eur"`. -/
theorem c6_witness :
    jsGet [("amount", JsVal.num (.finite 1500)), ("currency", JsVal.str "eur")] "amount" =
      some (JsVal.num (.finite 1500)) ∧
    jsLtNum (.finite 1500) 50 = false ∧
    ((jsGet [("amount", JsVal.num (.finite 1500)), ("currency", JsVal.str "eur")] "currency" = none →
       ∃ a, (gateway { contentTypeJson := true,
                       rawBody := .jsonObj [("amount", JsVal.num (.finite 1500)),
                                            ("currency", JsVal.str "eur")] } okCall none).remoteCall
             = some a ∧ a.currency = JsVal.str "usd") ∧
     (∀ v, jsGet [("amount", JsVal.num (.finite 1500)), ("currency", JsVal.str "eur")] "currency" = some v →
       ∃ a, (gateway { contentTypeJson := true,
                       rawBody := .jsonObj [("amount", JsVal.num (.finite 1500)),
                                            ("currency", JsVal.str "eur")] } okCall none).remoteCall
             = some a ∧ a.currency = v)) :=
  ⟨by simp [jsGet], by norm_num [jsLtNum],
   c6_currency_default_and_passthrough _ okCall none (.finite 1500)
     (by simp [jsGet]) (by norm_num [jsLtNum])⟩

/-- C7 counterexample: the health body is not exactly `{status: "healthy"}` —
the handler also returns a `version` field, so C7's exact-body claim is
false. -/
theorem c7_counterexample :
    (healthCheck none).body ≠ [("status", JsVal.str "healthy")] := by
  simp [healthCheck]

/-- C7 (amended): `GET /health` always answers 200 with the fixed body
`{status: "healthy", version: <app version>}` — its `status` field is
`"healthy"` — and performs no remote call; the handler takes no remote client
at all, so the result cannot depend on the processor's availability. -/
theorem c7_health_fixed (env : Option String) :
    (healthCheck env).status = 200 ∧
    jsGet (healthCheck env).body "status" = some (JsVal.str "healthy") ∧
    (healthCheck env).remoteCall = none ∧
    (healthCheck env).body =
      [("status", JsVal.str "healthy"), ("version", JsVal.str (appVersion env))] := by
  refine ⟨rfl, ?_, rfl, rfl⟩
  simp [healthCheck, jsGet]

/-- C8: the catch-all boundary maps every escaping exception — for example the
parse failure thrown by `express.json` on a malformed JSON body — to 500 with
the fixed body `{error: "Internal Server Error"}`, independent of the error's
message and stack, so no internal detail reaches the caller. -/
theorem c8_error_boundary_generic :
    (∀ e : ServerError, errorHandler e =
      { status := 500, body := [("error", JsVal.str "Internal Server Error")],
        remoteCall := none }) ∧
    (∀ (call : StripeArgs → Except StripeError PaymentIntent) (env : Option String),
      gateway { contentTypeJson := true, rawBody := .invalidJson } call env =
        { status := 500, body := [("error", JsVal.str "Internal Server Error")],
          remoteCall := none }) :=
  ⟨fun _ => rfl, fun _ _ => rfl⟩

/-- C9: a `POST /payment/create` request with no body and no `Content-Type`
header makes `req.is("application/json")` falsy, so the gateway answers 415
(not a 400 validation error) and issues no remote call. -/
theorem c9_no_content_type_415
    (call : StripeArgs → Except StripeError PaymentIntent) (env : Option String) :
    (gateway { contentTypeJson := false, rawBody := .empty } call env).status = 415 ∧
    (gateway { contentTypeJson := false, rawBody := .empty } call env).status ≠ 400 ∧
    (gateway { contentTypeJson := false, rawBody := .empty } call env).remoteCall = none := by
  refine ⟨rfl, ?_, rfl⟩
  intro h
  simp [gateway, createPaymentIntent] at h

/-- C10: noninterference — two JSON object bodies that agree on their
`amount` and `currency` properties produce identical gateway behaviour:
same response and same remote call (or absence of one). -/
theorem c10_noninterference (fs1 fs2 : List (String × JsVal))
    (call : StripeArgs → Except StripeError PaymentIntent) (env : Option String)
    (hamt : jsGet fs1 "amount" = jsGet fs2 "amount")
    (hcur : jsGet fs1 "currency" = jsGet fs2 "currency") :
    gateway { contentTypeJson := true, rawBody := .jsonObj fs1 } call env =
      gateway { contentTypeJson := true, rawBody := .jsonObj fs2 } call env := by
  simp only [gateway, createPaymentIntent, jsGetProp]
  rw [hamt, hcur]

/-- Witness for C10: adding an unrelated `note` field changes nothing. -/
theorem c10_witness :
    jsGet [("amount", JsVal.num (.finite 100)), ("note", JsVal.str "gift")] "amount" =
      jsGet [("amount", JsVal.num (.finite 100))] "amount" ∧
    jsGet [("amount", JsVal.num (.finite 100)), ("note", JsVal.str "gift")] "currency" =
      jsGet [("amount", JsVal.num (.finite 100))] "currency" ∧
    gateway { contentTypeJson := true,
              rawBody := .jsonObj [("amount", JsVal.num (.finite 100)),
                                   ("note", JsVal.str "gift")] } okCall none =
      gateway { contentTypeJson := true,
                rawBody := .jsonObj [("amount", JsVal.num (.finite 100))] } okCall none := by
  refine ⟨?_, ?_, ?_⟩
  · simp [jsGet]
  · simp [jsGet]
  · exact c10_noninterference _ _ okCall none (by simp [jsGet]) (by simp [jsGet])

end PaymentGateway
